import Mathlib

/-!
Verification of the GeoSplat alignment core (cesium-gaussian-splatting).

Shallow embedding of:
  * src/alignment/composeModelMatrix.ts  (ENU transform composer)
  * src/alignment/planeFit.ts            (plane-fit tilt estimator)
  * src/alignment/scaleCalibration.ts    (road-width scale calibrator)
  * src/controllers/AlignmentController.ts (parameter mediator)
  * src/adjustment-tracker.ts            (adjustment audit log)

Numbers are modelled as exact rationals (ℚ); the JavaScript transcendental
functions (Math.sin/cos/sqrt/atan2) and the two external Cesium frame
functions (Transforms.eastNorthUpToFixedFrame and Matrix4.inverse of it) are
abstracted into an environment record `GeoEnv`, so every theorem quantifies
over the trig/sqrt oracle and the anchor frame.  Matrices are explicit
structures with row-major mathematical entries; Cesium's Matrix4.multiply is
ordinary matrix multiplication, which is what `Mat3.mul`/`Mat4.mul` are.
-/

namespace GeoSplat

/-- 3-vector of rationals, modelling the `Vec3 = [number, number, number]`
tuples of src/types/alignment.ts. -/
structure Vec3 where
  x : ℚ
  y : ℚ
  z : ℚ
deriving DecidableEq

/-- Quaternion `[x, y, z, w]` as returned by `quaternionBetween`
(src/alignment/planeFit.ts). -/
structure Quat where
  x : ℚ
  y : ℚ
  z : ℚ
  w : ℚ
deriving DecidableEq

/-- 3×3 matrix, row-major mathematical entries (`mRC` = row R, column C). -/
structure Mat3 where
  m00 : ℚ
  m01 : ℚ
  m02 : ℚ
  m10 : ℚ
  m11 : ℚ
  m12 : ℚ
  m20 : ℚ
  m21 : ℚ
  m22 : ℚ
deriving DecidableEq

/-- 4×4 matrix, row-major mathematical entries. -/
structure Mat4 where
  m00 : ℚ
  m01 : ℚ
  m02 : ℚ
  m03 : ℚ
  m10 : ℚ
  m11 : ℚ
  m12 : ℚ
  m13 : ℚ
  m20 : ℚ
  m21 : ℚ
  m22 : ℚ
  m23 : ℚ
  m30 : ℚ
  m31 : ℚ
  m32 : ℚ
  m33 : ℚ
deriving DecidableEq

/-- Matrix product (Cesium.Matrix3.multiply is plain matrix multiplication). -/
def Mat3.mul (A B : Mat3) : Mat3 where
  m00 := A.m00 * B.m00 + A.m01 * B.m10 + A.m02 * B.m20
  m01 := A.m00 * B.m01 + A.m01 * B.m11 + A.m02 * B.m21
  m02 := A.m00 * B.m02 + A.m01 * B.m12 + A.m02 * B.m22
  m10 := A.m10 * B.m00 + A.m11 * B.m10 + A.m12 * B.m20
  m11 := A.m10 * B.m01 + A.m11 * B.m11 + A.m12 * B.m21
  m12 := A.m10 * B.m02 + A.m11 * B.m12 + A.m12 * B.m22
  m20 := A.m20 * B.m00 + A.m21 * B.m10 + A.m22 * B.m20
  m21 := A.m20 * B.m01 + A.m21 * B.m11 + A.m22 * B.m21
  m22 := A.m20 * B.m02 + A.m21 * B.m12 + A.m22 * B.m22

/-- Matrix product (Cesium.Matrix4.multiply is plain matrix multiplication). -/
def Mat4.mul (A B : Mat4) : Mat4 where
  m00 := A.m00 * B.m00 + A.m01 * B.m10 + A.m02 * B.m20 + A.m03 * B.m30
  m01 := A.m00 * B.m01 + A.m01 * B.m11 + A.m02 * B.m21 + A.m03 * B.m31
  m02 := A.m00 * B.m02 + A.m01 * B.m12 + A.m02 * B.m22 + A.m03 * B.m32
  m03 := A.m00 * B.m03 + A.m01 * B.m13 + A.m02 * B.m23 + A.m03 * B.m33
  m10 := A.m10 * B.m00 + A.m11 * B.m10 + A.m12 * B.m20 + A.m13 * B.m30
  m11 := A.m10 * B.m01 + A.m11 * B.m11 + A.m12 * B.m21 + A.m13 * B.m31
  m12 := A.m10 * B.m02 + A.m11 * B.m12 + A.m12 * B.m22 + A.m13 * B.m32
  m13 := A.m10 * B.m03 + A.m11 * B.m13 + A.m12 * B.m23 + A.m13 * B.m33
  m20 := A.m20 * B.m00 + A.m21 * B.m10 + A.m22 * B.m20 + A.m23 * B.m30
  m21 := A.m20 * B.m01 + A.m21 * B.m11 + A.m22 * B.m21 + A.m23 * B.m31
  m22 := A.m20 * B.m02 + A.m21 * B.m12 + A.m22 * B.m22 + A.m23 * B.m32
  m23 := A.m20 * B.m03 + A.m21 * B.m13 + A.m22 * B.m23 + A.m23 * B.m33
  m30 := A.m30 * B.m00 + A.m31 * B.m10 + A.m32 * B.m20 + A.m33 * B.m30
  m31 := A.m30 * B.m01 + A.m31 * B.m11 + A.m32 * B.m21 + A.m33 * B.m31
  m32 := A.m30 * B.m02 + A.m31 * B.m12 + A.m32 * B.m22 + A.m33 * B.m32
  m33 := A.m30 * B.m03 + A.m31 * B.m13 + A.m32 * B.m23 + A.m33 * B.m33

/-- The 4×4 identity matrix. -/
def Mat4.identity : Mat4 :=
  ⟨1, 0, 0, 0, 0, 1, 0, 0, 0, 0, 1, 0, 0, 0, 0, 1⟩

/-- Geodetic anchor point (lat °, lon °, ellipsoidal height m),
as passed to `composeModelMatrixENU` and held by the controller. -/
structure Anchor where
  lat : ℚ
  lon : ℚ
  height : ℚ
deriving DecidableEq

/-- Environment of external / transcendental functions the embedded code
calls.  `enuFrame` models `Cesium.Transforms.eastNorthUpToFixedFrame` at the
anchor's ECEF position: per Cesium's documentation it is the transformation
FROM the local east-north-up frame TO the Earth-fixed (ECEF) frame, i.e. the
localToWorld basis.  `enuFrameInv` models `Cesium.Matrix4.inverse` applied to
that frame (so it is the worldToLocal basis).  `sinQ`, `cosQ`, `sqrtQ` and
`atan2Q` stand for JavaScript's Math.sin / Math.cos / Math.sqrt / Math.atan2;
theorems quantify over them, and concrete instances used in witnesses agree
with the real functions at every point at which they are evaluated. -/
structure GeoEnv where
  enuFrame : Anchor → Mat4
  enuFrameInv : Anchor → Mat4
  sinQ : ℚ → ℚ
  cosQ : ℚ → ℚ
  sqrtQ : ℚ → ℚ
  atan2Q : ℚ → ℚ → ℚ

/-- `Cesium.Matrix3.fromRotationZ` — rotation about the Z (Up) axis. -/
def fromRotationZ (env : GeoEnv) (angle : ℚ) : Mat3 :=
  ⟨env.cosQ angle, -(env.sinQ angle), 0,
   env.sinQ angle, env.cosQ angle, 0,
   0, 0, 1⟩

/-- `Cesium.Matrix3.fromRotationX` — rotation about the X (East) axis. -/
def fromRotationX (env : GeoEnv) (angle : ℚ) : Mat3 :=
  ⟨1, 0, 0,
   0, env.cosQ angle, -(env.sinQ angle),
   0, env.sinQ angle, env.cosQ angle⟩

/-- `Cesium.Matrix3.fromRotationY` — rotation about the Y (North) axis. -/
def fromRotationY (env : GeoEnv) (angle : ℚ) : Mat3 :=
  ⟨env.cosQ angle, 0, env.sinQ angle,
   0, 1, 0,
   -(env.sinQ angle), 0, env.cosQ angle⟩

/-- `Cesium.Matrix3.fromArray` reads a flat 9-element array in column-major
order: array element `i` lands in column `i / 3`, row `i % 3`. -/
def matrix3FromArray (l : List ℚ) : Mat3 :=
  ⟨l.getD 0 0, l.getD 3 0, l.getD 6 0,
   l.getD 1 0, l.getD 4 0, l.getD 7 0,
   l.getD 2 0, l.getD 5 0, l.getD 8 0⟩

/-- `Cesium.Matrix4.fromScale(scale, scale, scale)`. -/
def Mat4.fromScale (s : ℚ) : Mat4 :=
  ⟨s, 0, 0, 0, 0, s, 0, 0, 0, 0, s, 0, 0, 0, 0, 1⟩

/-- `Cesium.Matrix4.fromTranslation(tEast, tNorth, tUp)`. -/
def Mat4.fromTranslation (e n u : ℚ) : Mat4 :=
  ⟨1, 0, 0, e, 0, 1, 0, n, 0, 0, 1, u, 0, 0, 0, 1⟩

/-- `Cesium.Matrix4.fromRotation` — embed a 3×3 rotation into a 4×4 matrix. -/
def Mat4.fromRotation (m : Mat3) : Mat4 :=
  ⟨m.m00, m.m01, m.m02, 0,
   m.m10, m.m11, m.m12, 0,
   m.m20, m.m21, m.m22, 0,
   0, 0, 0, 1⟩

/-- The alignment parameter set of src/types/alignment.ts.  `tiltLocked` is an
optional boolean in TypeScript (absent ⇒ falsy), modelled as a `Bool` with
default `false`; `alignRotation` is the optional cached flat 3×3 array. -/
structure EnuParams where
  scale : ℚ
  yawRad : ℚ
  pitchRad : ℚ
  rollRad : ℚ
  tEast : ℚ
  tNorth : ℚ
  tUp : ℚ
  tiltLocked : Bool := false
  alignRotation : Option (List ℚ) := none
deriving DecidableEq

/-- The pair cached per anchor by `getCachedEnuTransforms`
(src/alignment/composeModelMatrix.ts lines 8–21).  The field names reproduce
the source verbatim: the source assigns the result of
`Transforms.eastNorthUpToFixedFrame` (the ENU→ECEF basis) to `ecefToEnu` and
its `Matrix4.inverse` to `enuToEcef`. -/
structure EnuTransforms where
  ecefToEnu : Mat4
  enuToEcef : Mat4

/-- `getCachedEnuTransforms` (src/alignment/composeModelMatrix.ts).  The
process-wide cache keyed by the rounded-anchor string is a pure memoization —
for a fixed key the entry is computed exactly once from the anchor and never
changed — so it is modelled by the pure function itself. -/
def getCachedEnuTransforms (env : GeoEnv) (anchor : Anchor) : EnuTransforms :=
  { ecefToEnu := env.enuFrame anchor
    enuToEcef := env.enuFrameInv anchor }

/-- The legacy three-axis rotation branch of `composeModelMatrixENU`
(lines 42–51): `Rm = (Rz · Rx) · Ry`. -/
def legacyRotation (env : GeoEnv) (p : EnuParams) : Mat3 :=
  ((fromRotationZ env p.yawRad).mul (fromRotationX env p.pitchRad)).mul
    (fromRotationY env p.rollRad)

/-- The 3×3 rotation selected inside `composeModelMatrixENU` (lines 33–52):
when `p.tiltLocked && p.alignRotation` it is
`Matrix3.fromArray(p.alignRotation) · Rz(yaw)`, otherwise the legacy
`Rz(yaw) · Rx(pitch) · Ry(roll)`. -/
def composerRotation (env : GeoEnv) (p : EnuParams) : Mat3 :=
  match p.tiltLocked, p.alignRotation with
  | true, some arr => (matrix3FromArray arr).mul (fromRotationZ env p.yawRad)
  | true, none => legacyRotation env p
  | false, _ => legacyRotation env p

/-- `composeModelMatrixENU` (src/alignment/composeModelMatrix.ts lines 23–69):
`M_ENU = T · (R · S)` and the final result is
`(enuToEcef · M_ENU) · ecefToEnu` with the `EnuTransforms` field values —
i.e. `inverse(eastNorthUpToFixedFrame) · M_ENU · eastNorthUpToFixedFrame`. -/
def composeModelMatrixENU (env : GeoEnv) (anchor : Anchor) (p : EnuParams) : Mat4 :=
  let t := getCachedEnuTransforms env anchor
  let S := Mat4.fromScale p.scale
  let R := Mat4.fromRotation (composerRotation env p)
  let T := Mat4.fromTranslation p.tEast p.tNorth p.tUp
  let M := T.mul (R.mul S)
  (t.enuToEcef.mul M).mul t.ecefToEnu

/-! ## Plane-fit tilt estimator (src/alignment/planeFit.ts) -/

/-- `crossProduct` helper (planeFit.ts lines 125–131). -/
def crossProduct (a b : Vec3) : Vec3 :=
  ⟨a.y * b.z - a.z * b.y,
   a.z * b.x - a.x * b.z,
   a.x * b.y - a.y * b.x⟩

/-- Dot product of two 3-vectors (written inline in the source). -/
def dotV (a b : Vec3) : ℚ :=
  a.x * b.x + a.y * b.y + a.z * b.z

/-- The length `Math.sqrt(v[0]*v[0] + v[1]*v[1] + v[2]*v[2])` computed in
`normalize` (planeFit.ts line 134). -/
def lenOf (env : GeoEnv) (v : Vec3) : ℚ :=
  env.sqrtQ (v.x * v.x + v.y * v.y + v.z * v.z)

/-- `normalize` helper (planeFit.ts lines 133–137): lengths below `1e-10`
silently fall back to `[0, 0, 1]`. -/
def normalize (env : GeoEnv) (v : Vec3) : Vec3 :=
  let len := lenOf env v
  if len < 1 / 10000000000 then ⟨0, 0, 1⟩
  else ⟨v.x / len, v.y / len, v.z / len⟩

/-- Centroid of a point list (planeFit.ts lines 8–16). -/
def centroidOf (pts : List Vec3) : Vec3 :=
  let s := pts.foldl (fun acc p => (⟨acc.x + p.x, acc.y + p.y, acc.z + p.z⟩ : Vec3)) (⟨0, 0, 0⟩ : Vec3)
  let n : ℚ := pts.length
  ⟨s.x / n, s.y / n, s.z / n⟩

/-- The centroid-centered point list (planeFit.ts line 19). -/
def centeredOf (pts : List Vec3) : List Vec3 :=
  pts.map (fun p => ⟨p.x - (centroidOf pts).x, p.y - (centroidOf pts).y, p.z - (centroidOf pts).z⟩)

/-- `estimatePlaneNormal` (planeFit.ts lines 4–62).  Throws for fewer than 3
points; otherwise crosses the first two centered points, normalizes (with the
`[0,0,1]` fallback inside `normalize` for degenerate crosses) and
sign-corrects the Up component.  The source also accumulates a 3×3 covariance
matrix (lines 22–41) that is never read afterwards; that dead computation has
no observable effect and is omitted here. -/
def estimatePlaneNormal (env : GeoEnv) (pts : List Vec3) : Except String Vec3 :=
  if pts.length < 3 then .error "Need at least 3 points for plane fitting"
  else
    let centered := centeredOf pts
    let normal0 : Vec3 := ⟨0, 0, 1⟩
    let normal1 :=
      if 2 ≤ centered.length then
        normalize env (crossProduct (centered.getD 0 ⟨0, 0, 0⟩) (centered.getD 1 ⟨0, 0, 0⟩))
      else normal0
    let normal2 :=
      if normal1.z < 0 then ⟨-normal1.x, -normal1.y, -normal1.z⟩ else normal1
    .ok normal2

/-- `quaternionBetween` (planeFit.ts lines 64–97): shortest-arc quaternion
from `a` to `b`, with the near-parallel (`dot > 0.999999`) identity branch and
the antiparallel (`dot < -0.999999`) fallback-axis branch. -/
def quaternionBetween (env : GeoEnv) (a b : Vec3) : Quat :=
  let aNorm := normalize env a
  let bNorm := normalize env b
  let d := dotV aNorm bNorm
  if 999999 / 1000000 < d then ⟨0, 0, 0, 1⟩
  else if d < -(999999 / 1000000) then
    let orthogonal : Vec3 := if 9 / 10 < |aNorm.x| then ⟨0, 1, 0⟩ else ⟨1, 0, 0⟩
    let c := crossProduct aNorm orthogonal
    let crossNorm := normalize env c
    ⟨crossNorm.x, crossNorm.y, crossNorm.z, 0⟩
  else
    let c := crossProduct aNorm bNorm
    let s := env.sqrtQ ((1 + d) * 2)
    let invs := 1 / s
    ⟨c.x * invs, c.y * invs, c.z * invs, s * (1 / 2)⟩

/-- `quaternionToMatrix3` (planeFit.ts lines 139–153): row-major flat 3×3
rotation matrix of a quaternion. -/
def quaternionToMatrix3 (q : Quat) : List ℚ :=
  let xx := q.x * q.x
  let yy := q.y * q.y
  let zz := q.z * q.z
  let xy := q.x * q.y
  let xz := q.x * q.z
  let yz := q.y * q.z
  let wx := q.w * q.x
  let wy := q.w * q.y
  let wz := q.w * q.z
  [1 - 2 * (yy + zz), 2 * (xy - wz), 2 * (xz + wy),
   2 * (xy + wz), 1 - 2 * (xx + zz), 2 * (yz - wx),
   2 * (xz - wy), 2 * (yz + wx), 1 - 2 * (xx + yy)]

/-- Output record of `alignGroundToUp` (src/types/alignment.ts). -/
structure PlaneAlignment where
  quat : Quat
  pitchRad : ℚ
  rollRad : ℚ
  alignMatrix : List ℚ
deriving DecidableEq

/-- `alignGroundToUp` (planeFit.ts lines 99–122): plane normal, shortest-arc
quaternion onto Up, display Euler angles, and the flat rotation matrix. -/
def alignGroundToUp (env : GeoEnv) (pts : List Vec3) : Except String PlaneAlignment :=
  (estimatePlaneNormal env pts).map (fun normal =>
    let quat := quaternionBetween env normal ⟨0, 0, 1⟩
    let pitchRad := env.atan2Q (2 * (quat.w * quat.x + quat.y * quat.z))
      (1 - 2 * (quat.x * quat.x + quat.y * quat.y))
    let rollRad := env.atan2Q (2 * (quat.w * quat.y - quat.z * quat.x))
      (1 - 2 * (quat.y * quat.y + quat.z * quat.z))
    { quat := quat, pitchRad := pitchRad, rollRad := rollRad
      alignMatrix := quaternionToMatrix3 quat })

/-! ## Scale calibrator (src/alignment/scaleCalibration.ts) -/

/-- `metersPerUnitFromRoadWidth` (scaleCalibration.ts lines 4–10): throws on a
non-positive measured width, otherwise returns the exact ratio. -/
def metersPerUnitFromRoadWidth (trueWidthMeters measuredWidthUnits : ℚ) : Except String ℚ :=
  if measuredWidthUnits ≤ 0 then .error "Invalid measured width"
  else .ok (trueWidthMeters / measuredWidthUnits)

/-! ## Adjustment tracker (src/adjustment-tracker.ts) -/

/-- One `AdjustmentLog` entry.  The `timestamp: Date.now()` field is
environment time with no semantic content and is not modelled. -/
inductive LogEntry where
  | scale (before after delta : ℚ)
  | yaw (before after delta : ℚ)
  | pitch (before after delta : ℚ)
  | roll (before after delta : ℚ)
  | position (bE bN bU aE aN aU dE dN dU : ℚ)
  | height (before after delta : ℚ)
deriving DecidableEq

/-- The `totalDeltas` record of `SplatAdjustments`. -/
structure Deltas where
  scale : ℚ
  yawRad : ℚ
  pitchRad : ℚ
  rollRad : ℚ
  tEast : ℚ
  tNorth : ℚ
  tUp : ℚ
deriving DecidableEq

/-- State of an `AdjustmentTracker` (`SplatAdjustments` plus the `enabled`
flag). -/
structure TrackerState where
  initialParams : EnuParams
  currentParams : EnuParams
  logs : List LogEntry
  totalDeltas : Deltas
  enabled : Bool
deriving DecidableEq

/-- The `AdjustmentTracker` constructor (adjustment-tracker.ts lines 31–49). -/
def mkTracker (p : EnuParams) : TrackerState :=
  { initialParams := p
    currentParams := p
    logs := []
    totalDeltas := ⟨0, 0, 0, 0, 0, 0, 0⟩
    enabled := true }

/-- `logScaleAdjustment` (lines 52–68): `totalDeltas.scale` is the ratio of
the new value to the session-initial value; the logged delta is the step
factor `after / before`. -/
def logScaleAdjustment (before after : ℚ) (tr : TrackerState) : TrackerState :=
  if tr.enabled then
    { tr with
      totalDeltas := { tr.totalDeltas with scale := after / tr.initialParams.scale }
      logs := tr.logs ++ [LogEntry.scale before after (after / before)]
      currentParams := { tr.currentParams with scale := after } }
  else tr

/-- `logYawAdjustment` (lines 71–87). -/
def logYawAdjustment (before after : ℚ) (tr : TrackerState) : TrackerState :=
  if tr.enabled then
    { tr with
      totalDeltas := { tr.totalDeltas with yawRad := after - tr.initialParams.yawRad }
      logs := tr.logs ++ [LogEntry.yaw before after (after - before)]
      currentParams := { tr.currentParams with yawRad := after } }
  else tr

/-- `logPitchAdjustment` (lines 90–106). -/
def logPitchAdjustment (before after : ℚ) (tr : TrackerState) : TrackerState :=
  if tr.enabled then
    { tr with
      totalDeltas := { tr.totalDeltas with pitchRad := after - tr.initialParams.pitchRad }
      logs := tr.logs ++ [LogEntry.pitch before after (after - before)]
      currentParams := { tr.currentParams with pitchRad := after } }
  else tr

/-- `logRollAdjustment` (lines 109–125). -/
def logRollAdjustment (before after : ℚ) (tr : TrackerState) : TrackerState :=
  if tr.enabled then
    { tr with
      totalDeltas := { tr.totalDeltas with rollRad := after - tr.initialParams.rollRad }
      logs := tr.logs ++ [LogEntry.roll before after (after - before)]
      currentParams := { tr.currentParams with rollRad := after } }
  else tr

/-- `logPositionAdjustment` (lines 128–153). -/
def logPositionAdjustment (bE bN bU aE aN aU : ℚ) (tr : TrackerState) : TrackerState :=
  if tr.enabled then
    { tr with
      totalDeltas := { tr.totalDeltas with
        tEast := aE - tr.initialParams.tEast
        tNorth := aN - tr.initialParams.tNorth
        tUp := aU - tr.initialParams.tUp }
      logs := tr.logs ++
        [LogEntry.position bE bN bU aE aN aU (aE - bE) (aN - bN) (aU - bU)]
      currentParams := { tr.currentParams with tEast := aE, tNorth := aN, tUp := aU } }
  else tr

/-- `logHeightAdjustment` (lines 156–172). -/
def logHeightAdjustment (before after : ℚ) (tr : TrackerState) : TrackerState :=
  if tr.enabled then
    { tr with
      totalDeltas := { tr.totalDeltas with tUp := after - tr.initialParams.tUp }
      logs := tr.logs ++ [LogEntry.height before after (after - before)]
      currentParams := { tr.currentParams with tUp := after } }
  else tr

/-! ## Alignment controller (src/controllers/AlignmentController.ts)

`applyTransformationV2`, the Cesium viewer and the THREE scene-graph writes
are rendering side effects with no influence on the controller's own
`EnuParams`/tracker state; the state machine below models the observable
parameter and tracker state.  The `console.*` reporting calls are likewise
presentation only. -/

/-- Controller state: the mediated `enuParams` plus the owned tracker. -/
structure CtrlState where
  params : EnuParams
  tracker : TrackerState
deriving DecidableEq

/-- The controller constructor (AlignmentController.ts lines 21–50): the
seven numeric fields come from the splat layer, `tiltLocked`/`alignRotation`
are absent (falsy / undefined), offsets start at 0, and the tracker is
baselined on the initial params. -/
def initController (scale0 yaw0 pitch0 roll0 : ℚ) : CtrlState :=
  let p : EnuParams :=
    { scale := scale0, yawRad := yaw0, pitchRad := pitch0, rollRad := roll0
      tEast := 0, tNorth := 0, tUp := 0 }
  { params := p, tracker := mkTracker p }

/-- A `Partial<EnuParams>` batch as accepted by `setEnuParams`: every field
optional.  A present `alignRotation` carries the flat array to store. -/
structure PartialEnu where
  scale : Option ℚ := none
  yawRad : Option ℚ := none
  pitchRad : Option ℚ := none
  rollRad : Option ℚ := none
  tEast : Option ℚ := none
  tNorth : Option ℚ := none
  tUp : Option ℚ := none
  tiltLocked : Option Bool := none
  alignRotation : Option (List ℚ) := none
deriving DecidableEq

/-- `Object.assign(this.enuParams, batch)`: fields present in the batch
override, the rest keep their previous values. -/
def applyPartial (p : EnuParams) (q : PartialEnu) : EnuParams :=
  { scale := q.scale.getD p.scale
    yawRad := q.yawRad.getD p.yawRad
    pitchRad := q.pitchRad.getD p.pitchRad
    rollRad := q.rollRad.getD p.rollRad
    tEast := q.tEast.getD p.tEast
    tNorth := q.tNorth.getD p.tNorth
    tUp := q.tUp.getD p.tUp
    tiltLocked := q.tiltLocked.getD p.tiltLocked
    alignRotation := (q.alignRotation.map some).getD p.alignRotation }

/-- The public mutation operations of `AlignmentController`. -/
inductive Op where
  | adjustScale (factor : ℚ)
  | adjustYaw (deltaRad : ℚ)
  | adjustPitch (deltaRad : ℚ)
  | adjustRoll (deltaRad : ℚ)
  | adjustPosition (deltaEast deltaNorth deltaUp : ℚ)
  | lockTilt (groundPoints : Option (List Vec3))
  | calibrateScaleFromRoadWidth (trueWidthMeters measuredWidthUnits : ℚ)
  | setEnuParams (q : PartialEnu)
deriving DecidableEq

/-- One controller method call (AlignmentController.ts lines 104–256):
  * `adjustScale` multiplies and clamps into `[0.1, 50]`, then logs;
  * `adjustYaw` always adds and logs;
  * `adjustPitch`/`adjustRoll` return immediately (blocked) when
    `tiltLocked`, otherwise add and log;
  * `adjustPosition` adds all three offsets and logs one compound entry;
  * `lockTilt` returns unchanged for a missing list or fewer than 3 points,
    otherwise stores the plane-fit matrix, sets the lock and zeroes
    pitch/roll (the `catch` branch also leaves the state unchanged);
  * `calibrateScaleFromRoadWidth` assigns the calibrator's ratio directly and
    does not touch the tracker; the `catch` branch leaves the state unchanged;
  * `setEnuParams` strips `pitchRad`, `rollRad`, `alignRotation` and
    `tiltLocked` from the batch while locked, then `Object.assign`s. -/
def stepOp (env : GeoEnv) (o : Op) (st : CtrlState) : CtrlState :=
  match o with
  | .adjustScale factor =>
      let before := st.params.scale
      let after := max (1 / 10) (min 50 (st.params.scale * factor))
      { st with params := { st.params with scale := after }
                tracker := logScaleAdjustment before after st.tracker }
  | .adjustYaw deltaRad =>
      let before := st.params.yawRad
      let after := before + deltaRad
      { st with params := { st.params with yawRad := after }
                tracker := logYawAdjustment before after st.tracker }
  | .adjustPitch deltaRad =>
      if st.params.tiltLocked then st
      else
        let before := st.params.pitchRad
        let after := before + deltaRad
        { st with params := { st.params with pitchRad := after }
                  tracker := logPitchAdjustment before after st.tracker }
  | .adjustRoll deltaRad =>
      if st.params.tiltLocked then st
      else
        let before := st.params.rollRad
        let after := before + deltaRad
        { st with params := { st.params with rollRad := after }
                  tracker := logRollAdjustment before after st.tracker }
  | .adjustPosition deltaEast deltaNorth deltaUp =>
      let bE := st.params.tEast
      let bN := st.params.tNorth
      let bU := st.params.tUp
      { st with params := { st.params with
                  tEast := bE + deltaEast, tNorth := bN + deltaNorth, tUp := bU + deltaUp }
                tracker := logPositionAdjustment bE bN bU
                  (bE + deltaEast) (bN + deltaNorth) (bU + deltaUp) st.tracker }
  | .lockTilt groundPoints =>
      match groundPoints with
      | none => st
      | some pts =>
          if pts.length < 3 then st
          else
            match alignGroundToUp env pts with
            | .error _ => st
            | .ok al =>
                { st with params := { st.params with
                    alignRotation := some al.alignMatrix
                    tiltLocked := true
                    pitchRad := 0
                    rollRad := 0 } }
  | .calibrateScaleFromRoadWidth trueWidthMeters measuredWidthUnits =>
      match metersPerUnitFromRoadWidth trueWidthMeters measuredWidthUnits with
      | .error _ => st
      | .ok v => { st with params := { st.params with scale := v } }
  | .setEnuParams q =>
      if st.params.tiltLocked then
        let safeParams : PartialEnu :=
          { q with pitchRad := none, rollRad := none
                   alignRotation := none, tiltLocked := none }
        { st with params := applyPartial st.params safeParams }
      else
        { st with params := applyPartial st.params q }

/-- A whole session: controller method calls applied in order. -/
def runOps (env : GeoEnv) (ops : List Op) (st : CtrlState) : CtrlState :=
  ops.foldl (fun s o => stepOp env o s) st

/-! ## Concrete fixtures

`L0` is the exact value of `Cesium.Transforms.eastNorthUpToFixedFrame` at the
anchor lat = 0°, lon = 0°, height = 0 m: the anchor's ECEF position is
`(a, 0, 0)` with `a = 6378137` (the WGS84 semi-major axis), and the ENU basis
there is east = (0,1,0), north = (0,0,1), up = (1,0,0), giving the exact
rational ENU→ECEF matrix with columns east, north, up, position.  `L0inv` is
its exact inverse (verified by multiplication in the theorems below). -/

/-- ENU→ECEF (localToWorld) frame at lat = lon = height = 0. -/
def L0 : Mat4 :=
  ⟨0, 0, 1, 6378137,
   1, 0, 0, 0,
   0, 1, 0, 0,
   0, 0, 0, 1⟩

/-- Exact inverse of `L0` (ECEF→ENU, worldToLocal). -/
def L0inv : Mat4 :=
  ⟨0, 1, 0, 0,
   0, 0, 1, 0,
   1, 0, 0, -6378137,
   0, 0, 0, 1⟩

/-- The equatorial prime-meridian anchor. -/
def anchor0 : Anchor := ⟨0, 0, 0⟩

/-- Concrete environment for closed evaluations: the frame functions return
the exact lat = lon = height = 0 frame pair, and the numeric oracles agree
with the real Math functions at every point where the evaluated runs sample
them (sin 0 = 0, cos 0 = 1, sqrt 1 = 1, sqrt 0 = 0, atan2 0 1 = 0). -/
def env0 : GeoEnv :=
  { enuFrame := fun _ => L0
    enuFrameInv := fun _ => L0inv
    sinQ := fun _ => 0
    cosQ := fun _ => 1
    sqrtQ := fun q => if q = 1 then 1 else 0
    atan2Q := fun _ _ => 0 }

/-- Identity params except for a 1 m East offset. -/
def pEastOffset : EnuParams :=
  { scale := 1, yawRad := 0, pitchRad := 0, rollRad := 0
    tEast := 1, tNorth := 0, tUp := 0 }

/-- Identity params except for an invalid scale of −1. -/
def pNegScale : EnuParams :=
  { scale := -1, yawRad := 0, pitchRad := 0, rollRad := 0
    tEast := 0, tNorth := 0, tUp := 0 }

/-- An arbitrary cached 3×3 flat array. -/
def arrA : List ℚ := [1, 2, 3, 4, 5, 6, 7, 8, 9]

/-- Generic unlocked params with distinct angles. -/
def pUnlockedW : EnuParams :=
  { scale := 2, yawRad := 3, pitchRad := 5, rollRad := 7
    tEast := 0, tNorth := 0, tUp := 0 }

/-- Tilt-locked params carrying the cached array `arrA`. -/
def pLockedW : EnuParams :=
  { scale := 2, yawRad := 3, pitchRad := 0, rollRad := 0
    tEast := 0, tNorth := 0, tUp := 0
    tiltLocked := true, alignRotation := some arrA }

/-- A freshly constructed controller with initial scale 1 and no rotation. -/
def ctrl0 : CtrlState := initController 1 0 0 0

/-- Two ground points — insufficient for plane fitting. -/
def pts2 : List Vec3 := [⟨0, 0, 0⟩, ⟨1, 0, 0⟩]

/-- Three non-collinear level ground points. -/
def pts3 : List Vec3 := [⟨0, 0, 0⟩, ⟨1, 0, 0⟩, ⟨0, 1, 0⟩]

/-- Three points whose first two centered points coincide, so their cross
product is the zero vector (a degenerate plane-fit input). -/
def ptsDegenerate : List Vec3 := [⟨0, 0, 0⟩, ⟨0, 0, 0⟩, ⟨1, 2, 3⟩]

/-- A `setEnuParams` batch that sets the lock flag together with a nonzero
pitch. -/
def qBad : PartialEnu := { pitchRad := some (1 / 2), tiltLocked := some true }

/-- A session: pitch tweak, tilt lock, then a (blocked) pitch tweak and a yaw
tweak. -/
def opsW : List Op :=
  [Op.adjustPitch (1 / 10), Op.lockTilt (some pts3),
   Op.adjustPitch (1 / 10), Op.adjustYaw (1 / 10)]

/-- The tilt-lock data-model invariant: a locked state has pitch and roll
pinned at exactly zero. -/
def TiltInv (st : CtrlState) : Prop :=
  st.params.tiltLocked = true → st.params.pitchRad = 0 ∧ st.params.rollRad = 0

/-! ## Theorems -/

/-- Claim C1.  The claim states that the composer returns
`localToWorld · M_local · worldToLocal`, with `localToWorld` the anchor's
ENU-tangent-frame-to-Earth-fixed basis (which is exactly what
`Cesium.Transforms.eastNorthUpToFixedFrame` produces).  The code instead
stores that basis in the variable named `ecefToEnu`, takes its inverse as
`enuToEcef`, and multiplies `enuToEcef · M_ENU · ecefToEnu` — i.e. it returns
`worldToLocal · M_local · localToWorld`, the inverse conjugation.  At the
anchor lat = lon = height = 0 (frame `L0`, inverse `L0inv`, both exact and
verified as mutual inverses below) with a pure 1 m East offset, the code's
result translates ECEF by `(0, 0, 1)` (toward the north pole) while the
claimed `localToWorld · M_local · worldToLocal` translates by `(0, 1, 0)`
(the true east direction); the two matrices differ. -/
theorem composeENU_conjugation_reversed_at_origin :
    composeModelMatrixENU env0 anchor0 pEastOffset =
      (⟨1, 0, 0, 0, 0, 1, 0, 0, 0, 0, 1, 1, 0, 0, 0, 1⟩ : Mat4) ∧
    L0.mul (((Mat4.fromTranslation 1 0 0).mul
        ((Mat4.fromRotation (composerRotation env0 pEastOffset)).mul (Mat4.fromScale 1))).mul
          L0inv) =
      (⟨1, 0, 0, 0, 0, 1, 0, 1, 0, 0, 1, 0, 0, 0, 0, 1⟩ : Mat4) ∧
    L0.mul L0inv = Mat4.identity ∧
    L0inv.mul L0 = Mat4.identity ∧
    (⟨1, 0, 0, 0, 0, 1, 0, 0, 0, 0, 1, 1, 0, 0, 0, 1⟩ : Mat4) ≠
      (⟨1, 0, 0, 0, 0, 1, 0, 1, 0, 0, 1, 0, 0, 0, 0, 1⟩ : Mat4) := by
  refine ⟨?_, ?_, ?_, ?_, ?_⟩ <;>
    norm_num [composeModelMatrixENU, getCachedEnuTransforms, env0, L0, L0inv, Mat4.mul,
      Mat4.fromScale, Mat4.fromTranslation, Mat4.fromRotation, composerRotation, legacyRotation,
      fromRotationZ, fromRotationX, fromRotationY, Mat3.mul, pEastOffset, Mat4.identity,
      Mat4.mk.injEq]

/-- Claim C2.  Inside the composer the selected rotation equals
`Rz(yawRad) · Rx(pitchRad) · Ry(rollRad)` whenever the params are not
tilt-locked, and equals the cached alignment rotation (the flat array as
decoded by `Matrix3.fromArray`) times `Rz(yawRad)` whenever tilt-locked with
the cached rotation present; both equalities hold for every environment and
every parameter record, and their right-hand sides involve no other field. -/
theorem composerRotation_branch_formulas (env : GeoEnv) (p : EnuParams) :
    (p.tiltLocked = false →
      composerRotation env p =
        ((fromRotationZ env p.yawRad).mul (fromRotationX env p.pitchRad)).mul
          (fromRotationY env p.rollRad)) ∧
    (∀ arr, p.tiltLocked = true → p.alignRotation = some arr →
      composerRotation env p = (matrix3FromArray arr).mul (fromRotationZ env p.yawRad)) := by
  constructor
  · intro h
    simp [composerRotation, h, legacyRotation]
  · intro arr h1 h2
    simp [composerRotation, h1, h2]

/-- Witness for C2: both branch formulas evaluated on concrete parameter
records (unlocked with yaw 3 / pitch 5 / roll 7, and locked carrying the
array `arrA`). -/
theorem composerRotation_branch_formulas_witness :
    composerRotation env0 pUnlockedW =
      ((fromRotationZ env0 3).mul (fromRotationX env0 5)).mul (fromRotationY env0 7) ∧
    composerRotation env0 pLockedW = (matrix3FromArray arrA).mul (fromRotationZ env0 3) :=
  ⟨(composerRotation_branch_formulas env0 pUnlockedW).1 rfl,
   (composerRotation_branch_formulas env0 pLockedW).2 arrA rfl rfl⟩

/-- Claim C3, counterexample.  The claim states the composer rejects
`scale ≤ 0` with an error; in fact `composeModelMatrixENU` contains no scale
validation at all: at the concrete anchor `anchor0` with `scale = -1` it
returns an ordinary matrix (the −1 scale passed through un-clamped into every
diagonal entry), rather than failing. -/
theorem composeENU_accepts_nonpositive_scale :
    composeModelMatrixENU env0 anchor0 pNegScale =
      (⟨-1, 0, 0, 0, 0, -1, 0, 0, 0, 0, -1, -12756274, 0, 0, 0, 1⟩ : Mat4) := by
  norm_num [composeModelMatrixENU, getCachedEnuTransforms, env0, L0, L0inv, Mat4.mul,
    Mat4.fromScale, Mat4.fromTranslation, Mat4.fromRotation, composerRotation, legacyRotation,
    fromRotationZ, fromRotationX, fromRotationY, Mat3.mul, pNegScale]

/-- Claim C3, amended.  For every anchor and every `EnuParams` with
`scale ≤ 0` the composer does not reject the call: it returns the usual
composite `(enuToEcef · (T · (R · S))) · ecefToEnu` with
`S = diag(scale, scale, scale)` carrying the non-positive scale unchanged —
no error and no clamping; non-positive measurements are rejected only at the
road-width calibrator boundary. -/
theorem composeENU_no_scale_rejection (env : GeoEnv) (anchor : Anchor) (p : EnuParams)
    (_h : p.scale ≤ 0) :
    composeModelMatrixENU env anchor p =
      ((env.enuFrameInv anchor).mul
        ((Mat4.fromTranslation p.tEast p.tNorth p.tUp).mul
          ((Mat4.fromRotation (composerRotation env p)).mul (Mat4.fromScale p.scale)))).mul
        (env.enuFrame anchor) := rfl

/-- Witness for the amended C3 at the concrete negative-scale params. -/
theorem composeENU_no_scale_rejection_witness :
    composeModelMatrixENU env0 anchor0 pNegScale =
      ((env0.enuFrameInv anchor0).mul
        ((Mat4.fromTranslation pNegScale.tEast pNegScale.tNorth pNegScale.tUp).mul
          ((Mat4.fromRotation (composerRotation env0 pNegScale)).mul
            (Mat4.fromScale pNegScale.scale)))).mul
        (env0.enuFrame anchor0) :=
  composeENU_no_scale_rejection env0 anchor0 pNegScale (by norm_num [pNegScale])

/-- Claim C4.  For every point list with fewer than 3 points the plane-normal
estimator fails with the insufficient-data error (it does not fall back to a
default normal), and `lockTilt` invoked on such a list returns the controller
state entirely unchanged: no lock flag, no cached rotation, pitch/roll and
every other field untouched. -/
theorem lockTilt_insufficient_data_unchanged (env : GeoEnv) (st : CtrlState)
    (pts : List Vec3) (h : pts.length < 3) :
    estimatePlaneNormal env pts = .error "Need at least 3 points for plane fitting" ∧
    stepOp env (Op.lockTilt (some pts)) st = st := by
  constructor
  · simp [estimatePlaneNormal, h]
  · simp [stepOp, h]

/-- Witness for C4: `lockTilt` on a concrete 2-point list leaves the freshly
constructed controller state byte-for-byte unchanged. -/
theorem lockTilt_insufficient_data_unchanged_witness :
    estimatePlaneNormal env0 pts2 = .error "Need at least 3 points for plane fitting" ∧
    stepOp env0 (Op.lockTilt (some pts2)) ctrl0 = ctrl0 :=
  lockTilt_insufficient_data_unchanged env0 ctrl0 pts2 (by norm_num [pts2])

/-- Claim C5, counterexample.  The claim states the antiparallel branch
returns a 180° rotation about the fallback axis `(0, 1, 0)` unless `a` is
nearly parallel to that axis (then `(1, 0, 0)`).  In the code the axis choice
is mirrored — the default probe vector is `(1, 0, 0)`, switched to
`(0, 1, 0)` when `|a.x| > 0.9` — and the returned rotation axis is the
normalized cross product of `a` with the probe, not the probe itself.  For
the unit vectors `a = (1, 0, 0)`, `b = (-1, 0, 0)` (dot = −1) the code
returns the quaternion `(0, 0, 1, 0)` — a 180° rotation about the Z axis —
which is neither `(0, 1, 0, 0)` nor its negation. -/
theorem quaternionBetween_antiparallel_axis_mismatch :
    quaternionBetween env0 ⟨1, 0, 0⟩ ⟨-1, 0, 0⟩ = ⟨0, 0, 1, 0⟩ ∧
    (⟨0, 0, 1, 0⟩ : Quat) ≠ ⟨0, 1, 0, 0⟩ ∧
    (⟨0, 0, 1, 0⟩ : Quat) ≠ ⟨0, -1, 0, 0⟩ := by
  refine ⟨?_, ?_, ?_⟩ <;>
    norm_num [quaternionBetween, normalize, lenOf, dotV, crossProduct, env0, Quat.mk.injEq]

/-- Claim C5, amended.  For `dot > 0.999999` the construction returns the
identity quaternion; for `dot < -0.999999` it returns the 180° rotation
quaternion `(n.x, n.y, n.z, 0)` where `n` is the normalized cross product of
the normalized `a` with the probe vector `(1, 0, 0)` — or `(0, 1, 0)` when
`a` is nearly parallel to the X axis (`|a.x| > 0.9`). -/
theorem quaternionBetween_branch_behavior (env : GeoEnv) (a b : Vec3) :
    (999999 / 1000000 < dotV (normalize env a) (normalize env b) →
      quaternionBetween env a b = ⟨0, 0, 0, 1⟩) ∧
    (dotV (normalize env a) (normalize env b) < -(999999 / 1000000) →
      quaternionBetween env a b =
        ⟨(normalize env (crossProduct (normalize env a)
            (if 9 / 10 < |(normalize env a).x| then ⟨0, 1, 0⟩ else ⟨1, 0, 0⟩))).x,
         (normalize env (crossProduct (normalize env a)
            (if 9 / 10 < |(normalize env a).x| then ⟨0, 1, 0⟩ else ⟨1, 0, 0⟩))).y,
         (normalize env (crossProduct (normalize env a)
            (if 9 / 10 < |(normalize env a).x| then ⟨0, 1, 0⟩ else ⟨1, 0, 0⟩))).z, 0⟩) := by
  constructor
  · intro h
    simp only [quaternionBetween]
    rw [if_pos h]
  · intro h
    have h2 : ¬ (999999 / 1000000 < dotV (normalize env a) (normalize env b)) := by
      intro hc
      linarith
    simp only [quaternionBetween]
    rw [if_neg h2, if_pos h]

/-- Witness for the amended C5: the parallel pair `(0,0,1), (0,0,1)` yields
the identity quaternion, and the antiparallel pair `(0,0,1), (0,0,-1)` yields
the 180° rotation about `(0, 1, 0)` (here `cross(a, (1,0,0)) = (0,1,0)`). -/
theorem quaternionBetween_branch_behavior_witness :
    quaternionBetween env0 ⟨0, 0, 1⟩ ⟨0, 0, 1⟩ = ⟨0, 0, 0, 1⟩ ∧
    quaternionBetween env0 ⟨0, 0, 1⟩ ⟨0, 0, -1⟩ = ⟨0, 1, 0, 0⟩ :=
  ⟨(quaternionBetween_branch_behavior env0 ⟨0, 0, 1⟩ ⟨0, 0, 1⟩).1
      (by norm_num [normalize, lenOf, dotV, env0]),
   ((quaternionBetween_branch_behavior env0 ⟨0, 0, 1⟩ ⟨0, 0, -1⟩).2
      (by norm_num [normalize, lenOf, dotV, env0])).trans
      (by norm_num [normalize, lenOf, dotV, crossProduct, env0])⟩

/-- Claim C6.  The road-width calibrator fails exactly when
`measuredWidthUnits ≤ 0` (with the invalid-measurement error), returns the
exact un-clamped ratio `trueWidthMeters / measuredWidthUnits` otherwise, and
a failing calibration leaves the whole controller state — in particular the
scale — unchanged. -/
theorem roadWidthCalibrator_contract (env : GeoEnv) (t m : ℚ) (st : CtrlState) :
    ((∃ e, metersPerUnitFromRoadWidth t m = .error e) ↔ m ≤ 0) ∧
    (m ≤ 0 → metersPerUnitFromRoadWidth t m = .error "Invalid measured width" ∧
      stepOp env (Op.calibrateScaleFromRoadWidth t m) st = st) ∧
    (0 < m → metersPerUnitFromRoadWidth t m = .ok (t / m)) := by
  by_cases h : m ≤ 0
  · refine ⟨⟨fun _ => h,
      fun _ => ⟨"Invalid measured width", by simp [metersPerUnitFromRoadWidth, h]⟩⟩,
      fun _ => ⟨by simp [metersPerUnitFromRoadWidth, h],
        by simp [stepOp, metersPerUnitFromRoadWidth, h]⟩,
      fun hm => absurd h (not_le.mpr hm)⟩
  · refine ⟨⟨fun ⟨e, he⟩ => ?_, fun hm => absurd hm h⟩,
      fun hm => absurd hm h,
      fun _ => by simp [metersPerUnitFromRoadWidth, h]⟩
    simp [metersPerUnitFromRoadWidth, h] at he

/-- Witness for C6: `metersPerUnitFromRoadWidth 12 0` fails and leaves the
controller unchanged; `metersPerUnitFromRoadWidth 12 4` returns the exact
ratio 12/4. -/
theorem roadWidthCalibrator_contract_witness :
    (metersPerUnitFromRoadWidth 12 0 = .error "Invalid measured width" ∧
      stepOp env0 (Op.calibrateScaleFromRoadWidth 12 0) ctrl0 = ctrl0) ∧
    metersPerUnitFromRoadWidth 12 4 = .ok (12 / 4) :=
  ⟨(roadWidthCalibrator_contract env0 12 0 ctrl0).2.1 (by norm_num),
   (roadWidthCalibrator_contract env0 12 4 ctrl0).2.2 (by norm_num)⟩

/-- Claim C7, counterexample.  The invariant "every reachable state with
`tiltLocked = true` has pitch = roll = 0" fails: from the freshly constructed
(unlocked) controller, the single operation
`setEnuParams {pitchRad := 1/2, tiltLocked := true}` produces a reachable
state that is tilt-locked with `pitchRad = 1/2 ≠ 0`, because the pitch/roll
stripping in `setEnuParams` only applies when the state is already locked. -/
theorem tiltLock_invariant_breach_via_setEnuParams :
    (runOps env0 [Op.setEnuParams qBad] ctrl0).params.tiltLocked = true ∧
    (runOps env0 [Op.setEnuParams qBad] ctrl0).params.pitchRad = 1 / 2 ∧
    (1 / 2 : ℚ) ≠ 0 := by
  refine ⟨?_, ?_, by norm_num⟩ <;>
    simp [runOps, stepOp, qBad, ctrl0, initController, applyPartial]

/-- Step preservation of the tilt-lock invariant for every operation whose
`setEnuParams` batch does not set `tiltLocked` to `true`. -/
theorem stepOp_preserves_tiltInv (env : GeoEnv) (o : Op) (st : CtrlState)
    (ho : ∀ q, o = Op.setEnuParams q → q.tiltLocked ≠ some true)
    (h : TiltInv st) : TiltInv (stepOp env o st) := by
  cases o with
  | adjustScale f => exact h
  | adjustYaw d => exact h
  | adjustPitch d =>
      by_cases hL : st.params.tiltLocked = true
      · simpa [stepOp, hL] using h
      · intro hl
        simp [stepOp, hL] at hl
  | adjustRoll d =>
      by_cases hL : st.params.tiltLocked = true
      · simpa [stepOp, hL] using h
      · intro hl
        simp [stepOp, hL] at hl
  | adjustPosition dE dN dU => exact h
  | lockTilt gp =>
      cases gp with
      | none => exact h
      | some pts =>
          by_cases hn : pts.length < 3
          · simpa [stepOp, hn] using h
          · cases hal : alignGroundToUp env pts with
            | error e => simpa [stepOp, hn, hal] using h
            | ok al =>
                intro _
                simp [stepOp, hn, hal]
  | calibrateScaleFromRoadWidth t m =>
      cases hm : metersPerUnitFromRoadWidth t m with
      | error e => simpa [stepOp, hm] using h
      | ok v =>
          intro hl
          simp [stepOp, hm] at hl ⊢
          exact h hl
  | setEnuParams q =>
      by_cases hL : st.params.tiltLocked = true
      · intro _
        have hpr := h hL
        simp [stepOp, hL, applyPartial]
        exact hpr
      · intro hl
        simp [stepOp, hL, applyPartial] at hl
        cases hq : q.tiltLocked with
        | none => simp [hq] at hl
        | some b =>
            cases b with
            | false => simp [hq] at hl
            | true => exact absurd hq (ho q rfl)

/-- The tilt-lock invariant is preserved along any operation sequence whose
`setEnuParams` batches never set `tiltLocked` to `true`. -/
theorem runOps_preserves_tiltInv (env : GeoEnv) (ops : List Op) (st : CtrlState)
    (ho : ∀ q, Op.setEnuParams q ∈ ops → q.tiltLocked ≠ some true)
    (h : TiltInv st) : TiltInv (runOps env ops st) := by
  induction ops generalizing st with
  | nil => simpa [runOps] using h
  | cons o rest ih =>
      have h1 : TiltInv (stepOp env o st) :=
        stepOp_preserves_tiltInv env o st
          (fun q hq => ho q (by rw [hq] at *; exact List.mem_cons_self _ _)) h
      have h2 : ∀ q, Op.setEnuParams q ∈ rest → q.tiltLocked ≠ some true :=
        fun q hq => ho q (List.mem_cons_of_mem _ hq)
      simpa [runOps] using ih (stepOp env o st) h2 h1

/-- Claim C7, amended.  In every controller state reachable from a fresh
controller by operation sequences in which no `setEnuParams` batch sets
`tiltLocked` to `true` (the direct flag write being the sole violating path,
exhibited by the counterexample), `tiltLocked = true` implies
`pitchRad = 0 ∧ rollRad = 0`; moreover on any locked state `adjustPitch` and
`adjustRoll` are exact no-ops while `adjustYaw` still adds its delta. -/
theorem tiltLock_invariant_restricted (env : GeoEnv) (ops : List Op) (s0 y0 p0 r0 : ℚ)
    (ho : ∀ q, Op.setEnuParams q ∈ ops → q.tiltLocked ≠ some true) :
    ((runOps env ops (initController s0 y0 p0 r0)).params.tiltLocked = true →
      (runOps env ops (initController s0 y0 p0 r0)).params.pitchRad = 0 ∧
      (runOps env ops (initController s0 y0 p0 r0)).params.rollRad = 0) ∧
    (∀ st : CtrlState, ∀ d : ℚ, st.params.tiltLocked = true →
      stepOp env (Op.adjustPitch d) st = st ∧
      stepOp env (Op.adjustRoll d) st = st ∧
      (stepOp env (Op.adjustYaw d) st).params.yawRad = st.params.yawRad + d) := by
  constructor
  · exact runOps_preserves_tiltInv env ops _ ho
      (by intro hl; simp [initController] at hl)
  · intro st d hl
    exact ⟨by simp [stepOp, hl], by simp [stepOp, hl], by simp [stepOp]⟩

/-- Witness for the amended C7: the session `opsW` (pitch tweak, tilt lock,
blocked pitch tweak, yaw tweak) ends tilt-locked with pitch and roll exactly
zero, a further `adjustPitch` is an exact no-op, and `adjustYaw` still adds
its delta. -/
theorem tiltLock_invariant_restricted_witness :
    (runOps env0 opsW ctrl0).params.pitchRad = 0 ∧
    (runOps env0 opsW ctrl0).params.rollRad = 0 ∧
    stepOp env0 (Op.adjustPitch (1 / 10)) (runOps env0 opsW ctrl0) = runOps env0 opsW ctrl0 ∧
    (stepOp env0 (Op.adjustYaw (1 / 10)) (runOps env0 opsW ctrl0)).params.yawRad =
      (runOps env0 opsW ctrl0).params.yawRad + 1 / 10 := by
  have hmem : ∀ q, Op.setEnuParams q ∈ opsW → q.tiltLocked ≠ some true := by
    intro q hq
    simp [opsW] at hq
  have hlock : (runOps env0 opsW ctrl0).params.tiltLocked = true := by
    norm_num [runOps, opsW, stepOp, ctrl0, initController, mkTracker, logPitchAdjustment,
      logYawAdjustment, alignGroundToUp, estimatePlaneNormal, centeredOf, centroidOf,
      crossProduct, normalize, lenOf, dotV, quaternionBetween, quaternionToMatrix3, env0,
      pts3, Except.map]
  obtain ⟨h1, h2⟩ := (tiltLock_invariant_restricted env0 opsW 1 0 0 0 hmem).1 hlock
  have h3 := (tiltLock_invariant_restricted env0 opsW 1 0 0 0 hmem).2
    (runOps env0 opsW ctrl0) (1 / 10) hlock
  exact ⟨h1, h2, h3.1, h3.2.2⟩

/-- Claim C8.  After any tracker logging call (with tracking enabled) the
per-kind `totalDeltas` entry equals the call's after-value minus the
session-initial value of that kind — the ratio `after / initial` for scale —
independent of the previous `totalDeltas` and of the step's before-value; and
concretely, starting the controller at scale 1.0, two `adjustScale(1.1)`
calls yield `totalDeltas.scale = 1.21` (exactly, in rational arithmetic, the
idealization of the IEEE doubles the source computes with) and a log of
exactly two scale entries with befores 1, 1.1 and afters 1.1, 1.21. -/
theorem tracker_totalDeltas_from_initial (tr : TrackerState) (b a bE bN bU aE aN aU : ℚ)
    (h : tr.enabled = true) :
    (logScaleAdjustment b a tr).totalDeltas.scale = a / tr.initialParams.scale ∧
    (logYawAdjustment b a tr).totalDeltas.yawRad = a - tr.initialParams.yawRad ∧
    (logPitchAdjustment b a tr).totalDeltas.pitchRad = a - tr.initialParams.pitchRad ∧
    (logRollAdjustment b a tr).totalDeltas.rollRad = a - tr.initialParams.rollRad ∧
    (logPositionAdjustment bE bN bU aE aN aU tr).totalDeltas.tEast =
      aE - tr.initialParams.tEast ∧
    (logPositionAdjustment bE bN bU aE aN aU tr).totalDeltas.tNorth =
      aN - tr.initialParams.tNorth ∧
    (logPositionAdjustment bE bN bU aE aN aU tr).totalDeltas.tUp =
      aU - tr.initialParams.tUp ∧
    (logHeightAdjustment b a tr).totalDeltas.tUp = a - tr.initialParams.tUp ∧
    (runOps env0 [Op.adjustScale (11 / 10), Op.adjustScale (11 / 10)]
        ctrl0).tracker.totalDeltas.scale = 121 / 100 ∧
    (runOps env0 [Op.adjustScale (11 / 10), Op.adjustScale (11 / 10)] ctrl0).tracker.logs =
      [LogEntry.scale 1 (11 / 10) (11 / 10),
       LogEntry.scale (11 / 10) (121 / 100) (11 / 10)] := by
  refine ⟨?_, ?_, ?_, ?_, ?_, ?_, ?_, ?_, ?_, ?_⟩
  · simp [logScaleAdjustment, h]
  · simp [logYawAdjustment, h]
  · simp [logPitchAdjustment, h]
  · simp [logRollAdjustment, h]
  · simp [logPositionAdjustment, h]
  · simp [logPositionAdjustment, h]
  · simp [logPositionAdjustment, h]
  · simp [logHeightAdjustment, h]
  · norm_num [runOps, stepOp, ctrl0, initController, mkTracker, logScaleAdjustment]
  · norm_num [runOps, stepOp, ctrl0, initController, mkTracker, logScaleAdjustment]

/-- Witness for C8: every logging method of the fresh controller's (enabled)
tracker instantiated on concrete values, plus the concrete two-step scale
scenario. -/
theorem tracker_totalDeltas_from_initial_witness :
    (logScaleAdjustment 1 (11 / 10) ctrl0.tracker).totalDeltas.scale =
      (11 / 10) / ctrl0.tracker.initialParams.scale ∧
    (logYawAdjustment 1 (11 / 10) ctrl0.tracker).totalDeltas.yawRad =
      11 / 10 - ctrl0.tracker.initialParams.yawRad ∧
    (logPitchAdjustment 1 (11 / 10) ctrl0.tracker).totalDeltas.pitchRad =
      11 / 10 - ctrl0.tracker.initialParams.pitchRad ∧
    (logRollAdjustment 1 (11 / 10) ctrl0.tracker).totalDeltas.rollRad =
      11 / 10 - ctrl0.tracker.initialParams.rollRad ∧
    (logPositionAdjustment 0 0 0 1 2 3 ctrl0.tracker).totalDeltas.tEast =
      1 - ctrl0.tracker.initialParams.tEast ∧
    (logPositionAdjustment 0 0 0 1 2 3 ctrl0.tracker).totalDeltas.tNorth =
      2 - ctrl0.tracker.initialParams.tNorth ∧
    (logPositionAdjustment 0 0 0 1 2 3 ctrl0.tracker).totalDeltas.tUp =
      3 - ctrl0.tracker.initialParams.tUp ∧
    (logHeightAdjustment 1 (11 / 10) ctrl0.tracker).totalDeltas.tUp =
      11 / 10 - ctrl0.tracker.initialParams.tUp ∧
    (runOps env0 [Op.adjustScale (11 / 10), Op.adjustScale (11 / 10)]
        ctrl0).tracker.totalDeltas.scale = 121 / 100 ∧
    (runOps env0 [Op.adjustScale (11 / 10), Op.adjustScale (11 / 10)] ctrl0).tracker.logs =
      [LogEntry.scale 1 (11 / 10) (11 / 10),
       LogEntry.scale (11 / 10) (121 / 100) (11 / 10)] :=
  tracker_totalDeltas_from_initial ctrl0.tracker 1 (11 / 10) 0 0 0 1 2 3 rfl

/-- Claim C9.  For every input of 3 or more points in which the first two
centroid-centered points have a cross product of length below 1e-10 (as
measured by the code's own `sqrt`-based length), the plane-normal estimator
silently returns the fallback normal `(0, 0, 1)` instead of raising an error,
and the ground-alignment routine consequently returns the identity rotation
matrix.  The only assumption on the sqrt oracle beyond the degenerate length
is `sqrt 1 = 1`. -/
theorem planeNormal_degenerate_fallback (env : GeoEnv) (pts : List Vec3)
    (h3 : 3 ≤ pts.length)
    (hdeg : lenOf env (crossProduct ((centeredOf pts).getD 0 ⟨0, 0, 0⟩)
        ((centeredOf pts).getD 1 ⟨0, 0, 0⟩)) < 1 / 10000000000)
    (hs1 : env.sqrtQ 1 = 1) :
    estimatePlaneNormal env pts = .ok ⟨0, 0, 1⟩ ∧
    (alignGroundToUp env pts).map PlaneAlignment.alignMatrix =
      .ok [1, 0, 0, 0, 1, 0, 0, 0, 1] := by
  have hlen : ¬ pts.length < 3 := by omega
  have h2 : 2 ≤ (centeredOf pts).length := by
    simp [centeredOf]
    omega
  have hnorm : estimatePlaneNormal env pts = .ok ⟨0, 0, 1⟩ := by
    simp only [estimatePlaneNormal, if_neg hlen, if_pos h2]
    rw [normalize, if_pos hdeg]
    norm_num
  refine ⟨hnorm, ?_⟩
  have hnz : normalize env ⟨0, 0, 1⟩ = ⟨0, 0, 1⟩ := by
    simp [normalize, lenOf]
    norm_num [hs1]
  simp only [alignGroundToUp, hnorm, Except.map]
  simp [quaternionBetween, hnz, dotV]
  norm_num [quaternionToMatrix3]

/-- Witness for C9: a concrete 3-point list whose first two centered points
coincide (zero cross product) yields the fallback normal and the identity
alignment matrix. -/
theorem planeNormal_degenerate_fallback_witness :
    estimatePlaneNormal env0 ptsDegenerate = .ok ⟨0, 0, 1⟩ ∧
    (alignGroundToUp env0 ptsDegenerate).map PlaneAlignment.alignMatrix =
      .ok [1, 0, 0, 0, 1, 0, 0, 0, 1] :=
  planeNormal_degenerate_fallback env0 ptsDegenerate (by norm_num [ptsDegenerate])
    (by norm_num [ptsDegenerate, centeredOf, centroidOf, crossProduct, lenOf, env0])
    (by norm_num [env0])

/-- Claim C10.  A successful `calibrateScaleFromRoadWidth` assigns the raw
ratio `t / m` to the scale with no clamping (contrast: `adjustScale` clamps
into [0.1, 50]), leaves the tracker — including its log — completely
untouched, and leaves every `EnuParams` field other than scale unchanged. -/
theorem calibrateScale_assigns_raw_ratio (env : GeoEnv) (st : CtrlState) (t m : ℚ)
    (h : 0 < m) :
    stepOp env (Op.calibrateScaleFromRoadWidth t m) st =
      { st with params := { st.params with scale := t / m } } ∧
    (∀ f, (stepOp env (Op.adjustScale f) st).params.scale =
      max (1 / 10) (min 50 (st.params.scale * f))) := by
  constructor
  · have hok : metersPerUnitFromRoadWidth t m = .ok (t / m) := by
      simp [metersPerUnitFromRoadWidth, not_le.mpr h]
    simp [stepOp, hok]
  · intro f
    simp [stepOp]

/-- Witness for C10: calibrating with true width 100 over measured width 1
assigns scale 100/1 — outside adjustScale's [0.1, 50] clamp range — while
touching nothing else; the clamp formula of `adjustScale` is instantiated at
factor 2. -/
theorem calibrateScale_assigns_raw_ratio_witness :
    stepOp env0 (Op.calibrateScaleFromRoadWidth 100 1) ctrl0 =
      { ctrl0 with params := { ctrl0.params with scale := 100 / 1 } } ∧
    (stepOp env0 (Op.adjustScale 2) ctrl0).params.scale =
      max (1 / 10) (min 50 (ctrl0.params.scale * 2)) :=
  ⟨(calibrateScale_assigns_raw_ratio env0 ctrl0 100 1 (by norm_num)).1,
   (calibrateScale_assigns_raw_ratio env0 ctrl0 100 1 (by norm_num)).2 2⟩

end GeoSplat


